import Mathlib

/-!
Verification of the streaming ASR client scripts
(`src/clients/asr/transcribe_file_verbose.py`,
`src/scripts/asr/transcribe_file.py`, `src/scripts/asr/transcribe_mic_min.py`)
against their natural-language specification.

Audio data is modelled as `List Nat` (a byte/frame buffer); floating-point
scores (confidence, stability, thresholds) are modelled as exact rationals.
Functions of the library `riva.client` that the scripts call but whose code is
not under `src/` are modelled from the spec and are marked as such in their
doc comments.
-/

/-- A streaming recognition configuration, as assembled by the scripts:
the fields of `riva.client.RecognitionConfig` that the scripts set, plus the
word-boosting, endpointing and custom-configuration fields added by
`add_word_boosting_to_config`, `add_endpoint_parameters_to_config` and
`add_custom_configuration_to_config`. -/
structure RecognitionConfig where
  encoding : String
  language_code : String
  model : String
  max_alternatives : Int
  profanity_filter : Bool
  enable_automatic_punctuation : Bool
  verbatim_transcripts : Bool
  sample_rate_hertz : Int
  audio_channel_count : Int
  boosted_words : List (String × ℚ)
  start_history : Int
  start_threshold : ℚ
  stop_history : Int
  stop_threshold : ℚ
  stop_history_eou : Int
  stop_threshold_eou : ℚ
  custom_configuration : String
deriving DecidableEq, Repr

/-- `riva.client.StreamingRecognitionConfig`: a recognition config plus the
`interim_results` flag. -/
structure StreamingRecognitionConfig where
  config : RecognitionConfig
  interim_results : Bool
deriving DecidableEq, Repr

/-- `StreamingRecognizeRequest`: the tagged union of requests sent on the
outbound leg.  The source builds either
`StreamingRecognizeRequest(streaming_config=s)` or
`StreamingRecognizeRequest(audio_content=d)`
(`transcribe_file_verbose.py`, lines 131-136). -/
inductive StreamingRequest where
  | streaming_config (s : StreamingRecognitionConfig)
  | audio_content (d : List Nat)
deriving DecidableEq, Repr

/-- Whether a request is an audio payload. -/
def StreamingRequest.isAudio : StreamingRequest → Bool
  | .streaming_config _ => false
  | .audio_content _ => true

/-- One call `w.readframes(n)` on a wave reader whose remaining frames are the
list `w`: it returns the next at-most-`n` frames and leaves the rest. -/
def readframes (n : Nat) (w : List Nat) : List Nat × List Nat :=
  (w.take n, w.drop n)

/-- The audio-payload loop of `generator(w, s)`
(`transcribe_file_verbose.py`, lines 133-136):

`d = w.readframes(CHUNK); while len(d) > 0: yield audio_content=d; d = w.readframes(CHUNK)`.

`w` is the remaining frame buffer of the wave file. -/
def generatorAudio (chunk : Nat) (w : List Nat) : List StreamingRequest :=
  if h : ((readframes chunk w).1).length > 0 then
    .audio_content (readframes chunk w).1 :: generatorAudio chunk (readframes chunk w).2
  else
    []
termination_by w.length
decreasing_by
  simp only [readframes, List.length_take, gt_iff_lt, lt_inf_iff, List.length_drop] at h ⊢
  omega

/-- `generator(w, s)` of `transcribe_file_verbose.py`, lines 131-136: yields
one configuration request, then the audio-payload loop over the wave file's
frames. -/
def generator (w : List Nat) (s : StreamingRecognitionConfig) (chunk : Nat) :
    List StreamingRequest :=
  .streaming_config s :: generatorAudio chunk w

/-- Splitting a buffer into windows of `n` elements, the chunk sequence the
read loop of `generator` produces: all windows have `n` elements except
possibly the last, which is nonempty. -/
def chunksOf (n : Nat) (w : List Nat) : List (List Nat) :=
  if h : 0 < n ∧ w ≠ [] then
    w.take n :: chunksOf n (w.drop n)
  else
    []
termination_by w.length
decreasing_by
  rcases h with ⟨hn, hw⟩
  simp only [List.length_drop]
  have : 0 < w.length := List.length_pos.mpr hw
  omega

theorem generatorAudio_eq_chunksOf (chunk : Nat) (w : List Nat) :
    generatorAudio chunk w = (chunksOf chunk w).map .audio_content := by
  induction w using chunksOf.induct chunk with
  | case1 w h ih =>
    obtain ⟨hn, hw⟩ := h
    have hlen : ((readframes chunk w).1).length > 0 := by
      simp only [readframes, List.length_take, gt_iff_lt, lt_inf_iff]
      exact ⟨hn, List.length_pos.mpr hw⟩
    rw [generatorAudio, dif_pos hlen, chunksOf, dif_pos ⟨hn, hw⟩]
    simp only [readframes, List.map_cons, List.cons.injEq]
    exact ⟨trivial, ih⟩
  | case2 w h =>
    have hlen : ¬ ((readframes chunk w).1).length > 0 := by
      simp only [readframes, List.length_take, gt_iff_lt, lt_inf_iff, not_and_or]
      rcases not_and_or.mp h with h1 | h2
      · exact Or.inl (by omega)
      · simp only [not_not] at h2
        subst h2
        exact Or.inr (by simp)
    rw [generatorAudio, dif_neg hlen, chunksOf, dif_neg h]
    simp

theorem chunksOf_flatten (n : Nat) (w : List Nat) :
    (chunksOf n w).flatten = if 0 < n then w else [] := by
  induction w using chunksOf.induct n with
  | case1 w h ih =>
    rw [chunksOf, dif_pos h]
    rcases h with ⟨hn, hw⟩
    simp only [List.flatten_cons, ih, if_pos hn, List.take_append_drop]
  | case2 w h =>
    rw [chunksOf, dif_neg h]
    rcases not_and_or.mp h with h1 | h2
    · simp at h1; simp [h1]
    · simp at h2; simp [h2]

theorem chunksOf_length (n : Nat) (w : List Nat) (hn : 0 < n) :
    (chunksOf n w).length = (w.length + n - 1) / n := by
  induction w using chunksOf.induct n with
  | case1 w h ih =>
    rw [chunksOf, dif_pos h]
    rcases h with ⟨-, hw⟩
    have hwl : 0 < w.length := List.length_pos.mpr hw
    simp only [List.length_cons, ih, List.length_drop]
    rcases le_or_lt n w.length with hle | hlt
    · have e1 : w.length - n + n - 1 = w.length - 1 := by omega
      have e2 : w.length + n - 1 = (w.length - 1) + n := by omega
      rw [e1, e2, Nat.add_div_right _ hn]
    · have e1 : w.length - n = 0 := by omega
      rw [e1]
      have e2 : (0 + n - 1) / n = 0 := Nat.div_eq_of_lt (by omega)
      have e3 : (w.length + n - 1) / n = 1 := by
        apply Nat.div_eq_of_lt_le <;> omega
      rw [e2, e3]
  | case2 w h =>
    rw [chunksOf, dif_neg h]
    rcases not_and_or.mp h with h1 | h2
    · omega
    · simp only [not_not] at h2
      subst h2
      simp only [List.length_nil, Nat.zero_add]
      exact (Nat.div_eq_of_lt (by omega)).symm

theorem filter_isAudio_map (l : List (List Nat)) :
    (l.map StreamingRequest.audio_content).filter StreamingRequest.isAudio
      = l.map StreamingRequest.audio_content := by
  apply List.filter_eq_self.mpr
  intro a ha
  obtain ⟨c, -, rfl⟩ := List.mem_map.mp ha
  rfl

/-- A concrete streaming configuration, the one `transcribe_mic_min.py`
assembles from the defaults of its `Args` dataclass. -/
def sampleStreamingConfig : StreamingRecognitionConfig :=
  { config :=
      { encoding := "LINEAR_PCM", language_code := "en-US", model := "",
        max_alternatives := 1, profanity_filter := false,
        enable_automatic_punctuation := true, verbatim_transcripts := true,
        sample_rate_hertz := 16000, audio_channel_count := 1, boosted_words := [],
        start_history := -1, start_threshold := -1, stop_history := -1,
        stop_threshold := -1, stop_history_eou := -1, stop_threshold_eou := -1,
        custom_configuration := "" },
    interim_results := true }

/-- C1: on the outbound leg, the request sequence produced by `generator`
begins with exactly one Configuration request, and every subsequent request
is an AudioPayload carrying the source's chunks in production order — the
tail is literally the chunk sequence, so there is no reordering, no
duplication and no silent drop. -/
theorem generator_config_first_then_chunks_in_order
    (w : List Nat) (s : StreamingRecognitionConfig) (chunk : Nat) :
    generator w s chunk
        = StreamingRequest.streaming_config s
            :: (chunksOf chunk w).map StreamingRequest.audio_content ∧
    (generator w s chunk).head? = Option.some (StreamingRequest.streaming_config s) ∧
    (∀ r ∈ (generator w s chunk).tail, r.isAudio = true) ∧
    ((generator w s chunk).filter (fun r => ! r.isAudio)).length = 1 := by
  have hgen : generator w s chunk
      = StreamingRequest.streaming_config s
          :: (chunksOf chunk w).map StreamingRequest.audio_content := by
    rw [generator, generatorAudio_eq_chunksOf]
  refine ⟨hgen, by rw [hgen]; rfl, ?_, ?_⟩
  · intro r hr
    rw [hgen] at hr
    simp only [List.tail_cons] at hr
    obtain ⟨c, -, rfl⟩ := List.mem_map.mp hr
    rfl
  · rw [hgen]
    simp only [List.filter_cons]
    have hconfig : (! (StreamingRequest.streaming_config s).isAudio) = true := rfl
    rw [if_pos hconfig]
    have hrest : ((chunksOf chunk w).map StreamingRequest.audio_content).filter
        (fun r => ! r.isAudio) = [] := by
      apply List.filter_eq_nil_iff.mpr
      intro a ha
      obtain ⟨c, -, rfl⟩ := List.mem_map.mp ha
      simp [StreamingRequest.isAudio]
    rw [hrest]
    rfl

/-- C2: for chunk size `n > 0` the file-backed chunking yields exactly
⌈length / n⌉ chunks whose concatenation is the original buffer; and a
3.2-second 16 kHz mono buffer (51200 frames) at 1600 frames per chunk gives
exactly 32 AudioPayload requests. -/
theorem chunkSource_ceil_count_and_concat
    (n : Nat) (w : List Nat) (s : StreamingRecognitionConfig) (hn : 0 < n) :
    (chunksOf n w).length = (w.length + n - 1) / n ∧
    (chunksOf n w).flatten = w ∧
    (w.length = 51200 →
      ((generator w s 1600).filter StreamingRequest.isAudio).length = 32) := by
  refine ⟨chunksOf_length n w hn, ?_, ?_⟩
  · rw [chunksOf_flatten, if_pos hn]
  · intro hw
    rw [generator, generatorAudio_eq_chunksOf]
    simp only [List.filter_cons]
    have hconfig : ((StreamingRequest.streaming_config s).isAudio) = false := rfl
    rw [if_neg (by simp [hconfig])]
    rw [filter_isAudio_map, List.length_map, chunksOf_length _ _ (by norm_num), hw]

/-- Witness for C2 at chunk size 1600 over a 51200-frame buffer. -/
theorem chunkSource_ceil_count_and_concat_witness :
    (0 : Nat) < 1600 ∧
    ((chunksOf 1600 (List.replicate 51200 0)).length
        = ((List.replicate 51200 (0 : Nat)).length + 1600 - 1) / 1600 ∧
      (chunksOf 1600 (List.replicate 51200 0)).flatten = List.replicate 51200 0 ∧
      ((List.replicate 51200 (0 : Nat)).length = 51200 →
        ((generator (List.replicate 51200 0) sampleStreamingConfig 1600).filter
            StreamingRequest.isAudio).length = 32)) :=
  ⟨by decide,
   chunkSource_ceil_count_and_concat 1600 (List.replicate 51200 0)
     sampleStreamingConfig (by decide)⟩

/-- An `Alternative` of a recognition result: transcript text and confidence
score (scores modelled as exact rationals).  Named `AsrAlternative` because
`Alternative` is taken by the ambient library. -/
structure AsrAlternative where
  transcript : String
  confidence : ℚ
deriving DecidableEq, Repr

/-- A streaming recognition result: ranked alternatives, finality flag, and
the stability score of an interim result. -/
structure RecognitionResult where
  alternatives : List AsrAlternative
  is_final : Bool
  stability : ℚ
deriving DecidableEq, Repr

/-- A streaming response: a list of results. -/
structure StreamingRecognizeResponse where
  results : List RecognitionResult
deriving DecidableEq, Repr

/-- One line printed by `listen_print_loop`: the transcript line and the
score line of a final result, the transcript line and the score line of an
interim ("partial") result, or the `----` separator. -/
inductive Line where
  | finalTranscript (t : String)
  | finalConfidence (c : String)
  | interimTranscript (t : String)
  | interimStability (s : String)
  | sep
deriving DecidableEq, Repr

/-- Left-pad a string with spaces to width `w`. -/
def padLeft (w : Nat) (s : String) : String :=
  String.mk (List.replicate (w - s.length) ' ') ++ s

/-- Python's fixed-point formatting `f"{x:9.4f}"` of a nonnegative score:
round to four decimal places and pad with spaces to width nine. -/
def format9_4 (q : ℚ) : String :=
  let n : Nat := (Int.floor (q * 10000 + 1 / 2)).toNat
  let ip := n / 10000
  let fp := n % 10000
  let fs := toString fp
  padLeft 9 (toString ip ++ "." ++ String.mk (List.replicate (4 - fs.length) '0') ++ fs)

/-- The body of the inner result loop of `listen_print_loop`
(`transcribe_file_verbose.py`, lines 61-72): a result with no alternatives is
skipped (`continue`); otherwise the transcript of `alternatives[0]` is
printed, as a final transcript line followed by its confidence when
`is_final`, else as a partial transcript line followed by the result's
stability, scores formatted `9.4f`. -/
def printResult (result : RecognitionResult) : List Line :=
  match result.alternatives with
  | [] => []
  | alt :: _ =>
    if result.is_final then
      [Line.finalTranscript alt.transcript,
       Line.finalConfidence (format9_4 alt.confidence)]
    else
      [Line.interimTranscript alt.transcript,
       Line.interimStability (format9_4 result.stability)]

/-- The response loop of `listen_print_loop`
(`transcribe_file_verbose.py`, lines 56-74), with the two running counters
`num_chars_printed` and `idx` threaded exactly as in the source: `idx` is
incremented once per response, `num_chars_printed` is never changed, and
neither is read when producing output.  A response with an empty result list
is skipped (`continue`); otherwise its results are printed and one `----`
separator follows. -/
def listen_print_loop_aux (num_chars_printed idx : Nat) :
    List StreamingRecognizeResponse → List Line
  | [] => []
  | response :: rest =>
    if response.results = [] then
      listen_print_loop_aux num_chars_printed (idx + 1) rest
    else
      (response.results.map printResult).flatten ++ [Line.sep]
        ++ listen_print_loop_aux num_chars_printed (idx + 1) rest

/-- `listen_print_loop(responses)` (`transcribe_file_verbose.py`,
lines 53-74): both counters start at 0. -/
def listen_print_loop (responses : List StreamingRecognizeResponse) : List Line :=
  listen_print_loop_aux 0 0 responses

/-- The same loop with the two counters removed. -/
def listen_print_loop_pure : List StreamingRecognizeResponse → List Line
  | [] => []
  | response :: rest =>
    if response.results = [] then
      listen_print_loop_pure rest
    else
      (response.results.map printResult).flatten ++ [Line.sep]
        ++ listen_print_loop_pure rest

theorem listen_print_loop_aux_eq_pure (responses : List StreamingRecognizeResponse) :
    ∀ num_chars_printed idx, listen_print_loop_aux num_chars_printed idx responses
      = listen_print_loop_pure responses := by
  induction responses with
  | nil => intro n i; rfl
  | cons response rest ih =>
    intro n i
    rw [listen_print_loop_aux, listen_print_loop_pure]
    by_cases h : response.results = []
    · rw [if_pos h, if_pos h, ih]
    · rw [if_neg h, if_neg h, ih]

/-- The response sequence of the end-to-end scenario: partial "hel",
partial "hello", then final "hello" with confidence 0.92 (= 23/25); the
interim results' stabilities are taken as 0. -/
def scenarioResponses : List StreamingRecognizeResponse :=
  [⟨[⟨[⟨"hel", 0⟩], false, 0⟩]⟩,
   ⟨[⟨[⟨"hello", 0⟩], false, 0⟩]⟩,
   ⟨[⟨[⟨"hello", 23 / 25⟩], true, 0⟩]⟩]

/-- C3: the presenter displays the transcript of alternative 0 — a final
result as a final transcript line with its formatted confidence, an interim
result as a partial transcript line with its formatted stability — and on
the scenario [partial "hel", partial "hello", final "hello" (0.92)] the
output is, in order, the two partial lines then the final line whose printed
confidence is 0.9200. -/
theorem presenter_top_alternative_and_scenario
    (resp : StreamingRecognizeResponse) (r : RecognitionResult)
    (alt : AsrAlternative) (others : List AsrAlternative)
    (hres : resp.results = [r]) (halt : r.alternatives = alt :: others) :
    listen_print_loop [resp]
        = (if r.is_final then
             [Line.finalTranscript alt.transcript,
              Line.finalConfidence (format9_4 alt.confidence)]
           else
             [Line.interimTranscript alt.transcript,
              Line.interimStability (format9_4 r.stability)]) ++ [Line.sep] ∧
    listen_print_loop scenarioResponses
        = [Line.interimTranscript "hel", Line.interimStability (format9_4 0),
           Line.sep,
           Line.interimTranscript "hello", Line.interimStability (format9_4 0),
           Line.sep,
           Line.finalTranscript "hello", Line.finalConfidence "   0.9200",
           Line.sep] := by
  constructor
  · obtain ⟨results⟩ := resp
    simp only at hres
    subst hres
    obtain ⟨alts, fin, stab⟩ := r
    simp only at halt
    subst halt
    cases fin
    · rfl
    · rfl
  · have h92 : format9_4 (23 / 25) = "   0.9200" := by
      have h : (⌊(23 / 25 : ℚ) * 10000 + 1 / 2⌋ : Int) = 9200 := by
        rw [Int.floor_eq_iff]
        norm_num
      rw [format9_4, h]
      decide
    rw [← h92]
    rfl

/-- Witness for C3: a one-result response whose single alternative is
("hi", confidence 0). -/
theorem presenter_top_alternative_and_scenario_witness :
    (StreamingRecognizeResponse.mk [RecognitionResult.mk [AsrAlternative.mk "hi" 0] true 0]).results
        = [RecognitionResult.mk [AsrAlternative.mk "hi" 0] true 0] ∧
    (RecognitionResult.mk [AsrAlternative.mk "hi" 0] true 0).alternatives
        = AsrAlternative.mk "hi" 0 :: [] ∧
    (listen_print_loop [StreamingRecognizeResponse.mk
          [RecognitionResult.mk [AsrAlternative.mk "hi" 0] true 0]]
        = (if (RecognitionResult.mk [AsrAlternative.mk "hi" 0] true 0).is_final then
             [Line.finalTranscript "hi", Line.finalConfidence (format9_4 0)]
           else
             [Line.interimTranscript "hi", Line.interimStability (format9_4 0)])
            ++ [Line.sep] ∧
      listen_print_loop scenarioResponses
        = [Line.interimTranscript "hel", Line.interimStability (format9_4 0),
           Line.sep,
           Line.interimTranscript "hello", Line.interimStability (format9_4 0),
           Line.sep,
           Line.finalTranscript "hello", Line.finalConfidence "   0.9200",
           Line.sep]) :=
  ⟨rfl, rfl,
   presenter_top_alternative_and_scenario
     (StreamingRecognizeResponse.mk [RecognitionResult.mk [AsrAlternative.mk "hi" 0] true 0])
     (RecognitionResult.mk [AsrAlternative.mk "hi" 0] true 0)
     (AsrAlternative.mk "hi" 0) [] rfl rfl⟩

/-- C8: the two running counters `num_chars_printed` and `idx` of
`listen_print_loop` have no effect on the output content: from any counter
values the loop produces exactly the output of the loop with the counters
removed, for every input sequence. -/
theorem presenter_counters_have_no_effect
    (responses : List StreamingRecognizeResponse) (num_chars_printed idx : Nat) :
    listen_print_loop_aux num_chars_printed idx responses
        = listen_print_loop_pure responses ∧
    listen_print_loop responses = listen_print_loop_pure responses :=
  ⟨listen_print_loop_aux_eq_pure responses num_chars_printed idx,
   listen_print_loop_aux_eq_pure responses 0 0⟩

/-- C9: a response with an empty result list produces no output at all; a
result with an empty alternatives list is skipped (no access to alternative
0); and a response with nonempty results all lacking alternatives emits only
the `----` separator line. -/
theorem presenter_empty_results_and_alternatives
    (respEmpty respNoAlt : StreamingRecognizeResponse)
    (rest : List StreamingRecognizeResponse) (r : RecognitionResult)
    (h1 : respEmpty.results = [])
    (h2 : r.alternatives = [])
    (h3 : respNoAlt.results ≠ [])
    (h4 : ∀ x ∈ respNoAlt.results, x.alternatives = []) :
    listen_print_loop (respEmpty :: rest) = listen_print_loop rest ∧
    printResult r = [] ∧
    listen_print_loop [respNoAlt] = [Line.sep] := by
  refine ⟨?_, ?_, ?_⟩
  · show listen_print_loop_aux 0 0 (respEmpty :: rest) = listen_print_loop_aux 0 0 rest
    rw [listen_print_loop_aux_eq_pure, listen_print_loop_aux_eq_pure]
    simp only [listen_print_loop_pure]
    rw [if_pos h1]
  · obtain ⟨alts, fin, stab⟩ := r
    simp only at h2
    subst h2
    rfl
  · have hflat : (respNoAlt.results.map printResult).flatten = [] := by
      rw [List.flatten_eq_nil_iff]
      intro l hl
      obtain ⟨x, hx, rfl⟩ := List.mem_map.mp hl
      obtain ⟨alts, fin, stab⟩ := x
      have hx2 := h4 _ hx
      simp only at hx2
      subst hx2
      rfl
    show listen_print_loop_aux 0 0 [respNoAlt] = [Line.sep]
    simp only [listen_print_loop_aux, if_neg h3, hflat]
    simp

/-- Witness for C9: an empty response, an alternative-less result, and a
response holding only that result. -/
theorem presenter_empty_results_and_alternatives_witness :
    (StreamingRecognizeResponse.mk []).results = [] ∧
    (RecognitionResult.mk [] false 0).alternatives = [] ∧
    (StreamingRecognizeResponse.mk [RecognitionResult.mk [] false 0]).results ≠ [] ∧
    (∀ x ∈ (StreamingRecognizeResponse.mk [RecognitionResult.mk [] false 0]).results,
        x.alternatives = []) ∧
    (listen_print_loop (StreamingRecognizeResponse.mk []
          :: [StreamingRecognizeResponse.mk [RecognitionResult.mk [AsrAlternative.mk "hi" 0] true 0]])
        = listen_print_loop [StreamingRecognizeResponse.mk
            [RecognitionResult.mk [AsrAlternative.mk "hi" 0] true 0]] ∧
      printResult (RecognitionResult.mk [] false 0) = [] ∧
      listen_print_loop [StreamingRecognizeResponse.mk [RecognitionResult.mk [] false 0]]
        = [Line.sep]) :=
  ⟨rfl, rfl, by simp, by simp,
   presenter_empty_results_and_alternatives
     (StreamingRecognizeResponse.mk [])
     (StreamingRecognizeResponse.mk [RecognitionResult.mk [] false 0])
     [StreamingRecognizeResponse.mk [RecognitionResult.mk [AsrAlternative.mk "hi" 0] true 0]]
     (RecognitionResult.mk [] false 0)
     rfl rfl (by simp) (by simp)⟩

/-- The error taxonomy of the spec (section 7). -/
inductive RivaError where
  | invalidSource
  | invalidConfig
  | deviceError
  | streamInterrupted
  | cancelledByCaller
deriving DecidableEq, Repr

/-- An audio file as the file-backed chunk source sees it: its encoding name
and its decoded sample buffer. -/
structure AudioFile where
  encoding : String
  data : List Nat
deriving DecidableEq, Repr

/-- The encodings the file-backed source accepts: the caller must supply
linear PCM already at the service's expected encoding (spec section 4.1). -/
def encodingSupported (e : String) : Bool := e = "LINEAR_PCM"

/-- Modelled from the spec: the `open` operation of the file-backed
AudioChunkSource (`riva.client.AsyncAudioChunkFileIterator`, code not under
`src/`): it "fails with InvalidSourceError if the file cannot be opened or
its audio encoding is unsupported", and on success yields the file's data in
fixed-size chunks.  The file system is modelled as a map from source
descriptors to the audio files they name. -/
def openAudioChunkSource (fs : String → Option AudioFile) (descriptor : String)
    (chunkSize : Nat) : Except RivaError (List (List Nat)) :=
  match fs descriptor with
  | Option.none => Except.error RivaError.invalidSource
  | Option.some f =>
    if encodingSupported f.encoding then Except.ok (chunksOf chunkSize f.data)
    else Except.error RivaError.invalidSource

/-- C4: opening the file-backed chunk source on a descriptor naming a file
that cannot be opened, or one whose encoding is unsupported, fails with
InvalidSourceError. -/
theorem openAudioChunkSource_invalid_source
    (fs : String → Option AudioFile) (descriptor : String) (chunkSize : Nat)
    (h : fs descriptor = Option.none
      ∨ ∃ f, fs descriptor = Option.some f ∧ encodingSupported f.encoding = false) :
    openAudioChunkSource fs descriptor chunkSize
      = Except.error RivaError.invalidSource := by
  rcases h with h | ⟨f, hf, henc⟩
  · rw [openAudioChunkSource, h]
  · rw [openAudioChunkSource, hf]
    simp only [henc, Bool.false_eq_true, if_false]

/-- Witness for C4: an empty file system, on which every open fails. -/
theorem openAudioChunkSource_invalid_source_witness :
    ((fun _ => Option.none : String → Option AudioFile) "missing.wav" = Option.none
      ∨ ∃ f, (fun _ => Option.none : String → Option AudioFile) "missing.wav"
          = Option.some f ∧ encodingSupported f.encoding = false) ∧
    openAudioChunkSource (fun _ => Option.none) "missing.wav" 1600
      = Except.error RivaError.invalidSource :=
  ⟨Or.inl rfl,
   openAudioChunkSource_invalid_source (fun _ => Option.none) "missing.wav" 1600
     (Or.inl rfl)⟩

/-- The user-supplied ASR options, with the unset sentinels of the `Args`
dataclass of `transcribe_mic_min.py` (lines 21-27): history parameters unset
at -1, thresholds unset at -1.0. -/
structure AsrOptions where
  max_alternatives : Int
  start_history : Int := -1
  start_threshold : ℚ := -1
  stop_history : Int := -1
  stop_threshold : ℚ := -1
  stop_history_eou : Int := -1
  stop_threshold_eou : ℚ := -1
deriving DecidableEq, Repr

/-- A history/threshold endpointing pair is consistently specified: both set,
or both left at their unset sentinel. -/
def pairConsistent (history : Int) (threshold : ℚ) : Bool :=
  (history == -1 && threshold == -1) || (history != -1 && threshold != -1)

/-- Modelled from the spec: the RecognitionConfigBuilder (realised in
`riva.client` by `RecognitionConfig` plus `add_endpoint_parameters_to_config`,
code not under `src/`): it "fails with InvalidConfigError if
max_alternatives < 1 or any threshold/history pair is only partially
specified (both members of a pair must be set together, or both left at
their unset sentinel)"; otherwise it assembles the immutable config. -/
def buildRecognitionConfig (o : AsrOptions) : Except RivaError RecognitionConfig :=
  if o.max_alternatives < 1 then
    Except.error RivaError.invalidConfig
  else if ¬ (pairConsistent o.start_history o.start_threshold
      && pairConsistent o.stop_history o.stop_threshold
      && pairConsistent o.stop_history_eou o.stop_threshold_eou) then
    Except.error RivaError.invalidConfig
  else
    Except.ok
      { encoding := "LINEAR_PCM", language_code := "en-US", model := "",
        max_alternatives := o.max_alternatives, profanity_filter := false,
        enable_automatic_punctuation := true, verbatim_transcripts := true,
        sample_rate_hertz := 16000, audio_channel_count := 1, boosted_words := [],
        start_history := o.start_history, start_threshold := o.start_threshold,
        stop_history := o.stop_history, stop_threshold := o.stop_threshold,
        stop_history_eou := o.stop_history_eou,
        stop_threshold_eou := o.stop_threshold_eou,
        custom_configuration := "" }

/-- Modelled from the spec: a streaming session builds the recognition config
first, and only a successfully built config is followed by any request on
the outbound leg. -/
def runSession (o : AsrOptions) (w : List Nat) (chunk : Nat) (interim : Bool) :
    Except RivaError (List StreamingRequest) :=
  match buildRecognitionConfig o with
  | Except.error e => Except.error e
  | Except.ok c => Except.ok (generator w ⟨c, interim⟩ chunk)

/-- C5: a configuration with max_alternatives < 1, or with a threshold/history
endpointing pair only partially specified, fails to build with
InvalidConfigError, and the session then sends no request at all. -/
theorem buildRecognitionConfig_invalid
    (o : AsrOptions) (w : List Nat) (chunk : Nat) (interim : Bool)
    (h : o.max_alternatives < 1
      ∨ pairConsistent o.start_history o.start_threshold = false
      ∨ pairConsistent o.stop_history o.stop_threshold = false
      ∨ pairConsistent o.stop_history_eou o.stop_threshold_eou = false) :
    buildRecognitionConfig o = Except.error RivaError.invalidConfig ∧
    runSession o w chunk interim = Except.error RivaError.invalidConfig := by
  have hb : buildRecognitionConfig o = Except.error RivaError.invalidConfig := by
    rw [buildRecognitionConfig]
    rcases h with h | h | h | h
    · rw [if_pos h]
    all_goals
      by_cases hm : o.max_alternatives < 1
      · rw [if_pos hm]
      · rw [if_neg hm, if_pos (by simp [h])]
  exact ⟨hb, by rw [runSession, hb]⟩

/-- Witness for C5: the scenario max_alternatives = 0 (all endpointing
parameters at their sentinels). -/
theorem buildRecognitionConfig_invalid_witness :
    (({ max_alternatives := 0 } : AsrOptions).max_alternatives < 1
      ∨ pairConsistent ({ max_alternatives := 0 } : AsrOptions).start_history
          ({ max_alternatives := 0 } : AsrOptions).start_threshold = false
      ∨ pairConsistent ({ max_alternatives := 0 } : AsrOptions).stop_history
          ({ max_alternatives := 0 } : AsrOptions).stop_threshold = false
      ∨ pairConsistent ({ max_alternatives := 0 } : AsrOptions).stop_history_eou
          ({ max_alternatives := 0 } : AsrOptions).stop_threshold_eou = false) ∧
    (buildRecognitionConfig { max_alternatives := 0 }
        = Except.error RivaError.invalidConfig ∧
      runSession { max_alternatives := 0 } [] 1600 true
        = Except.error RivaError.invalidConfig) :=
  ⟨Or.inl (by norm_num),
   buildRecognitionConfig_invalid { max_alternatives := 0 } [] 1600 true
     (Or.inl (by norm_num))⟩

/-- The delay callback chosen by `main` of `transcribe_file.py`,
lines 114-125: the sound-playback callback, `riva.client.sleep_audio_length`,
or no callback (Python `None`). -/
inductive DelayCallback where
  | soundCallback
  | sleepAudioLength
  | noCallback
deriving DecidableEq, Repr

/-- The callback selection of `main` (`transcribe_file.py`, lines 114-125):
`if args.play_audio or args.output_device is not None:` use the sound
callback; else use `sleep_audio_length` when `args.simulate_realtime`, else
`None`. -/
def selectDelayCallback (play_audio : Bool) (output_device : Option Int)
    (simulate_realtime : Bool) : DelayCallback :=
  if play_audio || output_device.isSome then DelayCallback.soundCallback
  else if simulate_realtime then DelayCallback.sleepAudioLength
  else DelayCallback.noCallback

/-- The pacing applied before one chunk is handed to the outbound leg: no
delay, a timed suspension, or hardware-driven synchronisation with the
output device. -/
inductive PacingDelay where
  | noDelay
  | sleepSeconds (t : ℚ)
  | deviceSync
deriving DecidableEq, Repr

/-- Modelled from the spec: `riva.client.sleep_audio_length` (code not under
`src/`): it suspends the outbound leg for the chunk's playback duration,
byte_count / (sample_width × channel_count × frame_rate) seconds. -/
def sleepAudioLengthDelay (byte_count sample_width channel_count frame_rate : Nat) : ℚ :=
  (byte_count : ℚ) / ((sample_width : ℚ) * (channel_count : ℚ) * (frame_rate : ℚ))

/-- The delay a chosen callback applies to one chunk: no callback is a no-op,
`sleep_audio_length` sleeps the chunk's playback duration, and the sound
callback synchronises with the output device. -/
def chunkDelay (cb : DelayCallback)
    (byte_count sample_width channel_count frame_rate : Nat) : PacingDelay :=
  match cb with
  | DelayCallback.noCallback => PacingDelay.noDelay
  | DelayCallback.sleepAudioLength =>
    PacingDelay.sleepSeconds
      (sleepAudioLengthDelay byte_count sample_width channel_count frame_rate)
  | DelayCallback.soundCallback => PacingDelay.deviceSync

/-- C6: with neither playback nor realtime simulation requested (the default
argument values) the chosen policy applies no delay between chunks; with
realtime simulation requested the delay before each chunk is the chunk's
playback duration byte_count / (sample_width × channel_count × frame_rate)
seconds. -/
theorem pacing_default_noop_and_realtime_duration
    (byte_count sample_width channel_count frame_rate : Nat) :
    chunkDelay (selectDelayCallback false Option.none false)
        byte_count sample_width channel_count frame_rate = PacingDelay.noDelay ∧
    chunkDelay (selectDelayCallback false Option.none true)
        byte_count sample_width channel_count frame_rate
      = PacingDelay.sleepSeconds ((byte_count : ℚ)
          / ((sample_width : ℚ) * (channel_count : ℚ) * (frame_rate : ℚ))) :=
  ⟨rfl, rfl⟩

/-- Modelled from the spec: the playback sound device
(`riva.client.audio_io.SoundCallBack`, code not under `src/`): it opens with
`opened = True`; `close()` closes the underlying stream and sets `opened` to
`False`.  The field `closes` counts invocations of the underlying close. -/
structure SoundDevice where
  opened : Bool
  closes : Nat
deriving DecidableEq, Repr

/-- `SoundCallBack.close()`. -/
def SoundDevice.close (d : SoundDevice) : SoundDevice :=
  { opened := false, closes := d.closes + 1 }

/-- A freshly opened sound device. -/
def SoundDevice.openNew : SoundDevice := { opened := true, closes := 0 }

/-- The exit path taken by the body of `main`'s `try` block
(`transcribe_file.py`, lines 115-163): normal completion, an early `return`,
or an exception unwinding. -/
inductive ExitPath where
  | normal
  | earlyReturn
  | errorUnwind
deriving DecidableEq, Repr

/-- The `finally` clause of `main` (`transcribe_file.py`, lines 164-166):
`if sound_callback is not None and sound_callback.opened: sound_callback.close()`. -/
def finallyClose (sound_callback : Option SoundDevice) : Option SoundDevice :=
  match sound_callback with
  | Option.none => Option.none
  | Option.some d => if d.opened then Option.some d.close else Option.some d

/-- A session of `main` with playback requested: the device is opened, the
body runs to one of its exit paths without closing the device, and the
`finally` clause runs on every one of those paths.  Returns the device's
final state. -/
def mainWithDevice (path : ExitPath) : Option SoundDevice :=
  match path with
  | ExitPath.normal => finallyClose (Option.some SoundDevice.openNew)
  | ExitPath.earlyReturn => finallyClose (Option.some SoundDevice.openNew)
  | ExitPath.errorUnwind => finallyClose (Option.some SoundDevice.openNew)

/-- C7: on every exit path of the session the caller's `finally` clause
leaves the playback device closed with the underlying close invoked exactly
once, and running the clause a second time changes nothing (close is guarded
by `opened`, so a second invocation is safe). -/
theorem device_closed_exactly_once_on_every_exit
    (path : ExitPath) :
    mainWithDevice path = Option.some { opened := false, closes := 1 } ∧
    finallyClose (mainWithDevice path) = mainWithDevice path := by
  cases path <;> exact ⟨rfl, rfl⟩

/-- The attributes the `asyncio` module provides that this script could reach
for; Python's `asyncio` has no attribute named `open` (standard-library
fact). -/
def asyncioAttrs : List String :=
  ["run", "sleep", "gather", "wait", "open_connection", "get_event_loop"]

/-- A Python runtime error as surfaced by the script. -/
inductive PyError where
  | attributeError (name : String)
  | fileNotFoundError
deriving DecidableEq, Repr

/-- `get_wav_bytes(file_path, chunk_size)` (`transcribe_file.py`, lines
64-77): its first statement evaluates `asyncio.open(file_path, mode='rb')`;
the attribute lookup `asyncio.open` fails, so an AttributeError is raised
before the first chunk could be yielded.  The (unreachable) success path
would read the named file in `chunk_size`-byte chunks. -/
def get_wav_bytes (fs : String → Option (List Nat)) (file_path : String)
    (chunk_size : Nat) : Except PyError (List (List Nat)) :=
  if "open" ∈ asyncioAttrs then
    match fs file_path with
    | Option.some data => Except.ok (chunksOf chunk_size data)
    | Option.none => Except.error PyError.fileNotFoundError
  else
    Except.error (PyError.attributeError "open")

/-- The operations `main` of `transcribe_file.py` can invoke, in control-flow
order. -/
inductive ScriptOp where
  | listOutputDevices
  | printInvalidPath
  | buildConfig
  | listModels
  | openChunkIterator
  | runPrintStreaming
  | callGetWavBytes
deriving DecidableEq, Repr

/-- The argument values that steer `main`'s control flow
(`transcribe_file.py`, lines 79-166). -/
structure MainArgs where
  list_devices : Bool
  input_file_is_file : Bool
  list_models : Bool
deriving DecidableEq, Repr

/-- The control flow of `main` (`transcribe_file.py`, lines 79-166) as the
sequence of operations it invokes: list output devices and return; or reject
a bad input path and return; or build the config and either list models or
open the chunk iterator (`AsyncAudioChunkFileIterator`) and run the
streaming print loop.  `get_wav_bytes` appears in no branch. -/
def mainOps (args : MainArgs) : List ScriptOp :=
  if args.list_devices then [ScriptOp.listOutputDevices]
  else if ¬ args.input_file_is_file then [ScriptOp.printInvalidPath]
  else if args.list_models then [ScriptOp.buildConfig, ScriptOp.listModels]
  else [ScriptOp.buildConfig, ScriptOp.openChunkIterator, ScriptOp.runPrintStreaming]

/-- C10: `get_wav_bytes` raises an AttributeError (asyncio provides no
`open`) before yielding any chunk, for every file path, file system and
chunk size; and no execution path of the script invokes it — file chunking
is done by the external AsyncAudioChunkFileIterator instead. -/
theorem get_wav_bytes_always_raises_and_is_never_called
    (fs : String → Option (List Nat)) (file_path : String) (chunk_size : Nat)
    (args : MainArgs) :
    get_wav_bytes fs file_path chunk_size
        = Except.error (PyError.attributeError "open") ∧
    ScriptOp.callGetWavBytes ∉ mainOps args := by
  constructor
  · rw [get_wav_bytes, if_neg (by decide)]
  · rw [mainOps]
    rcases args with ⟨ld, iff2, lm⟩
    cases ld <;> cases iff2 <;> cases lm <;> simp
